import Mathlib

/-!
Verification of the cart-synchronization and conversation logic of a Telegram
storefront bot (`bot/main.py`).  The definitions below are shallow embeddings
of the functions in that file: remote HTTP calls are modelled by explicit
outcome values, JSON dictionaries by structures with optional fields, and
Python truthiness (`or`, `if x:`) by explicit helper functions.  Quantities
are modelled as integers since the code performs no arithmetic on them.
-/

set_option maxHeartbeats 1000000

/-- Truthiness of an optional string as Python evaluates it:
`None` and the empty string are falsy. -/
def truthyStr : Option String → Bool
  | none => false
  | some s => !(s == "")

/-- Python `a or b` on optional strings (token and identifier fallbacks). -/
def pyOrStr (a b : Option String) : Option String :=
  if truthyStr a then a else b

/-- Python `s or d` for an optional string with a non-empty default. -/
def pyStrOr (a : Option String) (d : String) : String :=
  match a with
  | none => d
  | some s => if s == "" then d else s

/-- Python `str.strip()`: surrounding whitespace removed. -/
def pyStrip (s : String) : String := s.trim

/-- Outcome of one remote call: a value, or a raised exception
(`RemoteError` / `TransportError` are not distinguished by the handlers,
which either catch every exception or none). -/
inductive RemoteRes (α : Type) where
  | ok (val : α)
  | fail
deriving DecidableEq

/-- Configuration object (`StrapiConfig`, main.py lines 28-38): base URL,
catalog URL and the two independently optional API tokens. -/
structure StrapiConfig where
  urlBase : String
  productsUrl : String
  tokenRead : Option String
  tokenWrite : Option String
deriving DecidableEq

/-- The `auth_token` property: `self.token_write or self.token_read`. -/
def StrapiConfig.authToken (c : StrapiConfig) : Option String :=
  pyOrStr c.tokenWrite c.tokenRead

/-- Token attached by `fetch_products` (line 285): `config.token_read`. -/
def productsToken (c : StrapiConfig) : Option String := c.tokenRead

/-- Token attached by `fetch_product_by_id` (line 84): `config.token_read`. -/
def productByIdToken (c : StrapiConfig) : Option String := c.tokenRead

/-- Token attached by `create_cart` (line 105): `config.auth_token`. -/
def createCartToken (c : StrapiConfig) : Option String := c.authToken

/-- Token attached by `fetch_cart_by_telegram` (line 126): `config.auth_token`. -/
def fetchCartToken (c : StrapiConfig) : Option String := c.authToken

/-- Token attached by `fetch_client_by_telegram` (line 149): `config.auth_token`. -/
def fetchClientToken (c : StrapiConfig) : Option String := c.authToken

/-- Token attached by `upsert_client_email` (line 168): `config.auth_token`. -/
def upsertClientToken (c : StrapiConfig) : Option String := c.authToken

/-- Token attached by `upsert_cart_with_item` (line 196): `config.auth_token`. -/
def upsertCartToken (c : StrapiConfig) : Option String := c.authToken

/-- Token attached by `update_cart_items` (line 240): `config.auth_token`. -/
def updateCartItemsToken (c : StrapiConfig) : Option String := c.authToken

/-- One element of a product picture list: a dictionary with an
optional `url` field. -/
structure ImageRef where
  url : Option String
deriving DecidableEq

/-- A product dictionary as returned by the remote store.  `picture` holds
optional elements because the code guards `picture[0] or \x7b\x7d`. -/
structure RProduct where
  id : Option Int
  title : Option String
  description : Option String
  price : Option Int
  picture : List (Option ImageRef)
deriving DecidableEq

/-- One cart item as read back from the store: an optionally populated
product dictionary together with an optional quantity. -/
structure CartItem where
  product : Option RProduct
  quantity : Option Int
deriving DecidableEq

/-- A cart dictionary: numeric id, document id and the ordered item list. -/
structure Cart where
  id : Option Int
  documentId : Option String
  items : List CartItem
deriving DecidableEq

/-- One entry of a cart write payload: `\x7b"product": id, "quantity": q\x7d`. -/
structure CartEntry where
  product : Int
  quantity : Int
deriving DecidableEq

/-- Identifier used to address a cart in a PUT URL:
`cart.get("documentId") or cart.get("id")`. -/
inductive CartRef where
  | byDoc (docId : String)
  | byId (id : Option Int)
deriving DecidableEq

/-- `cart.get("documentId") or cart.get("id")` with Python truthiness. -/
def cartRef (c : Cart) : CartRef :=
  match c.documentId with
  | some d => if d == "" then CartRef.byId c.id else CartRef.byDoc d
  | none => CartRef.byId c.id

/-- A write call issued against the cart collection: a POST creating a cart
with an initial item list, or a PUT replacing the full item list. -/
inductive CartWrite where
  | createCart (telegramId : String) (items : List CartEntry)
  | putItems (ref : CartRef) (items : List CartEntry)
deriving DecidableEq

/-- Resolution of one existing item into a write-payload entry
(main.py lines 218-225 and 442-445): the nested product dictionary must be
present and carry a non-null `id`; the quantity defaults to `1`. -/
def resolveEntry (item : CartItem) : Option CartEntry :=
  match item.product with
  | some prod =>
      match prod.id with
      | some pid => some ⟨pid, item.quantity.getD 1⟩
      | none => none
  | none => none

/-- The rebuild loop of `upsert_cart_with_item` (lines 217-225): walk the
existing items, keep the resolvable ones in order. -/
def rebuildItems : List CartItem → List CartEntry
  | [] => []
  | item :: rest =>
      match resolveEntry item with
      | some e => e :: rebuildItems rest
      | none => rebuildItems rest

/-- The rebuild loop of the `cart_remove` branch (lines 438-445):
`for i, item in enumerate(items)`, skipping position `idx`, keeping the
resolvable items in order.  The second argument is the enumeration counter. -/
def removeLoop (idx : Nat) : Nat → List CartItem → List CartEntry
  | _, [] => []
  | i, item :: rest =>
      if i = idx then removeLoop idx (i + 1) rest
      else
        match resolveEntry item with
        | some e => e :: removeLoop idx (i + 1) rest
        | none => removeLoop idx (i + 1) rest

/-- The full replacement list computed by the `cart_remove` branch. -/
def removeRebuild (idx : Nat) (items : List CartItem) : List CartEntry :=
  removeLoop idx 0 items

/-- `upsert_cart_with_item` (lines 193-234), given the result of the cart
read: the list of write calls it issues.  With no existing cart it POSTs a
cart with the single-entry item list; otherwise it rebuilds the resolvable
items, appends the new entry and issues one PUT. -/
def upsertCartWithItem (telegramId : String) (existing : Option Cart)
    (productId : Int) (quantity : Int) : List CartWrite :=
  match existing with
  | none => [CartWrite.createCart telegramId [⟨productId, quantity⟩]]
  | some cart =>
      let newItems := rebuildItems cart.items ++ [⟨productId, quantity⟩]
      [CartWrite.putItems (cartRef cart) newItems]

/-- Restatement of the add-item behaviour in the words of the specification:
one create call with exactly the single-entry list when no cart exists, and
one full-replace call whose list is the existing items restricted to those
with a resolved product id, in order, with the new entry appended last. -/
def upsertCartSpec (telegramId : String) (existing : Option Cart)
    (productId : Int) (quantity : Int) : List CartWrite :=
  match existing with
  | none => [CartWrite.createCart telegramId [⟨productId, quantity⟩]]
  | some cart =>
      [CartWrite.putItems (cartRef cart)
        (cart.items.filterMap resolveEntry ++ [⟨productId, quantity⟩])]

/-- The three conversation states of `ShopStates` (main.py lines 75-78). -/
inductive ConvState where
  | menu
  | cart
  | waitingEmail
deriving DecidableEq

/-- The caption block built for a product detail view (line 485): title with
its fallback, the optional price, description with its fallback. -/
structure Caption where
  title : String
  price : Option Int
  description : String
deriving DecidableEq

/-- Caption construction from a product (lines 461-464 and 485). -/
def mkCaption (p : RProduct) : Caption :=
  ⟨pyStrOr p.title ("Товар"), p.price, pyStrOr p.description ("Нет описания.")⟩

/-- The distinct user-visible replies the handlers can send. -/
inductive Msg where
  | menuShown (count : Nat)
  | productsFailed
  | noProducts
  | emptyCart
  | cartView (items : List CartItem)
  | promptEmail
  | badIndex
  | cartNotFound
  | positionNotFound
  | productNotFound
  | photoMsg (caption : Caption)
  | textMsg (caption : Caption)
  | addedToCart
  | addFailed
  | emailSaved (email : String)
  | emailFailed
  | echoedData (raw : String)
deriving DecidableEq

/-- Decoded callback payload.  `cartRemove` and `addcart` carry the result of
the Python `int(...)` parse of their argument (`none` when it raised). -/
inductive CallbackData where
  | backToList
  | mycart
  | checkout
  | cartRemove (idxParse : Option Int)
  | productBtn (numericId : String) (docId : String)
  | addcart (idxParse : Option Int)
  | otherData (raw : String)
deriving DecidableEq

/-- Behaviour of the single image GET inside `download_image`
(lines 254-269): a body, a non-success status, or a raised
timeout/connection error. -/
inductive ImageFetch where
  | okBytes (data : String)
  | httpNotOk
  | transportErr
deriving DecidableEq

/-- `download_image`: a non-ok status returns `None`; a transport failure
is not caught and propagates as an exception. -/
def downloadImage : ImageFetch → RemoteRes (Option String)
  | ImageFetch.okBytes d => RemoteRes.ok (some d)
  | ImageFetch.httpNotOk => RemoteRes.ok none
  | ImageFetch.transportErr => RemoteRes.fail

/-- Outcomes of the remote calls a single `handle_button` invocation may
perform, one field per call site. -/
structure RemoteWorld where
  products : RemoteRes (List RProduct)
  cart : RemoteRes (Option Cart)
  cartAfter : RemoteRes (Option Cart)
  update : RemoteRes Unit
  upsertCart : RemoteRes Unit
  productDetail : RemoteRes (Option RProduct)
  image : ImageFetch
deriving DecidableEq

/-- Observable result of one handler invocation: the conversation state as
persisted when the handler finishes or raises, the replies sent, the cart
write calls issued, and whether an exception escaped the handler. -/
structure Outcome where
  finalState : Option ConvState
  messages : List Msg
  writes : List CartWrite
  raised : Bool
deriving DecidableEq

/-- State set at the top of `handle_button` (lines 399-402):
`handle_cart` for the `mycart` payload, `handle_menu` otherwise. -/
def entryState (cb : CallbackData) : Option ConvState :=
  match cb with
  | CallbackData.mycart => some ConvState.cart
  | _ => some ConvState.menu

/-- `render_cart` (lines 365-394): the cart read is not guarded, so a failed
fetch raises; an absent or empty cart renders the empty-cart message. -/
def renderCart : RemoteRes (Option Cart) → List Msg × Bool
  | RemoteRes.fail => ([], true)
  | RemoteRes.ok none => ([Msg.emptyCart], false)
  | RemoteRes.ok (some c) =>
      if c.items.isEmpty then ([Msg.emptyCart], false)
      else ([Msg.cartView c.items], false)

/-- `send_products_menu` (lines 331-362): the products fetch is wrapped in
try/except and failure yields the retry-later message. -/
def menuStep : RemoteRes (List RProduct) → Outcome
  | RemoteRes.fail => ⟨some ConvState.menu, [Msg.productsFailed], [], false⟩
  | RemoteRes.ok ps =>
      if ps.isEmpty then ⟨some ConvState.menu, [Msg.noProducts], [], false⟩
      else ⟨some ConvState.menu, [Msg.menuShown ps.length], [], false⟩

/-- The `mycart` branch (lines 410-413): render the cart; nothing is caught. -/
def mycartStep (s1 : Option ConvState) (cartRes : RemoteRes (Option Cart)) :
    Outcome :=
  let r := renderCart cartRes
  ⟨s1, r.1, [], r.2⟩

/-- The `cart_remove:` branch (lines 419-449): parse the index, read the
cart, bounds-check, rebuild without the index and PUT, then re-render from a
fresh read.  None of the remote calls in this branch is guarded. -/
def cartRemoveStep (s1 : Option ConvState) (parse : Option Int)
    (w : RemoteWorld) : Outcome :=
  match parse with
  | none => ⟨s1, [Msg.badIndex], [], false⟩
  | some idx =>
      match w.cart with
      | RemoteRes.fail => ⟨s1, [], [], true⟩
      | RemoteRes.ok none => ⟨s1, [Msg.cartNotFound], [], false⟩
      | RemoteRes.ok (some c) =>
          if idx < 0 ∨ (c.items.length : Int) ≤ idx then
            ⟨s1, [Msg.positionNotFound], [], false⟩
          else
            let newItems := removeRebuild idx.toNat c.items
            match w.update with
            | RemoteRes.fail => ⟨s1, [], [CartWrite.putItems (cartRef c) newItems], true⟩
            | RemoteRes.ok _ =>
                let r := renderCart w.cartAfter
                ⟨s1, r.1, [CartWrite.putItems (cartRef c) newItems], r.2⟩

/-- `image_url.startswith("/")`: the URL begins with a slash. -/
def startsWithSlash (u : String) : Bool :=
  match u.data with
  | [] => false
  | ch :: _ => ch == '/'

/-- Image URL resolution in the `product:` branch (lines 477-483): first
picture element, its optional `url`, relative URLs prefixed with the base. -/
def resolveImageUrl (base : String) (p : RProduct) : Option String :=
  match p.picture with
  | [] => none
  | first :: _ =>
      match (first.getD ⟨none⟩).url with
      | none => none
      | some u =>
          if u == "" then none
          else if startsWithSlash u then some (base ++ u) else some u

/-- The `product:` branch (lines 451-505): fetch the product (unguarded),
build the caption, and send a photo when the image downloads, falling back
to text when `download_image` returns `None`. -/
def productStep (s1 : Option ConvState) (pd : RemoteRes (Option RProduct))
    (img : ImageFetch) (base : String) : Outcome :=
  match pd with
  | RemoteRes.fail => ⟨s1, [], [], true⟩
  | RemoteRes.ok none => ⟨s1, [Msg.productNotFound], [], false⟩
  | RemoteRes.ok (some p) =>
      let caption := mkCaption p
      match resolveImageUrl base p with
      | none => ⟨s1, [Msg.textMsg caption], [], false⟩
      | some _ =>
          match downloadImage img with
          | RemoteRes.fail => ⟨s1, [], [], true⟩
          | RemoteRes.ok (some _) => ⟨s1, [Msg.photoMsg caption], [], false⟩
          | RemoteRes.ok none => ⟨s1, [Msg.textMsg caption], [], false⟩

/-- The `addcart:` branch (lines 507-516): the `int(...)` parse and the
whole upsert are inside try/except, so any failure becomes the retry-later
reply. -/
def addcartStep (s1 : Option ConvState) (parse : Option Int)
    (res : RemoteRes Unit) : Outcome :=
  match parse with
  | none => ⟨s1, [Msg.addFailed], [], false⟩
  | some _ =>
      match res with
      | RemoteRes.fail => ⟨s1, [Msg.addFailed], [], false⟩
      | RemoteRes.ok _ => ⟨s1, [Msg.addedToCart], [], false⟩

/-- `handle_button` (lines 397-518): entry state is set first, then the
payload is dispatched to its branch. -/
def handleButton (cb : CallbackData) (w : RemoteWorld) (base : String) :
    Outcome :=
  let s1 := entryState cb
  match cb with
  | CallbackData.backToList => menuStep w.products
  | CallbackData.mycart => mycartStep s1 w.cart
  | CallbackData.checkout => ⟨some ConvState.waitingEmail, [Msg.promptEmail], [], false⟩
  | CallbackData.cartRemove parse => cartRemoveStep s1 parse w
  | CallbackData.productBtn _ _ => productStep s1 w.productDetail w.image base
  | CallbackData.addcart parse => addcartStep s1 parse w.upsertCart
  | CallbackData.otherData raw => ⟨s1, [Msg.echoedData raw], [], false⟩

/-- Observable result of `echo_email`: persisted state, replies, and the
email string handed to `upsert_client_email`. -/
structure EmailOutcome where
  finalState : Option ConvState
  messages : List Msg
  submitted : Option String
deriving DecidableEq

/-- `echo_email` (lines 315-328): the message text is stripped and submitted
as-is; on failure the handler replies and returns without touching the
state; on success the state is cleared (`state.clear()`). -/
def echoEmail (text : String) (upsertResult : RemoteRes Unit)
    (s0 : Option ConvState) : EmailOutcome :=
  let email := pyStrip text
  match upsertResult with
  | RemoteRes.fail => ⟨s0, [Msg.emailFailed], some email⟩
  | RemoteRes.ok _ => ⟨none, [Msg.emailSaved email], some email⟩

/-- A client dictionary: numeric id and document id. -/
structure Client where
  id : Option Int
  documentId : Option String
deriving DecidableEq

/-- Identifier used to address a client record in a PUT URL. -/
inductive ClientRef where
  | byDoc (docId : String)
  | byId (id : Option Int)
deriving DecidableEq

/-- `existing.get("documentId") or existing.get("id")` (line 185). -/
def clientRef (c : Client) : ClientRef :=
  match c.documentId with
  | some d => if d == "" then ClientRef.byId c.id else ClientRef.byDoc d
  | none => ClientRef.byId c.id

/-- A write call issued against the client collection. -/
inductive ClientWrite where
  | createClient (telegramId : String) (email : String)
  | updateClient (ref : ClientRef) (email : String)
deriving DecidableEq

/-- `upsert_client_email` (lines 165-190), given the result of the client
read: create with the pair when absent, update only the email otherwise. -/
def upsertClientEmail (telegramId : String) (existing : Option Client)
    (email : String) : ClientWrite :=
  match existing with
  | none => ClientWrite.createClient telegramId email
  | some c => ClientWrite.updateClient (clientRef c) email

/-- The email carried by a client write. -/
def writtenEmail : ClientWrite → String
  | ClientWrite.createClient _ e => e
  | ClientWrite.updateClient _ e => e

/-- Result of the single-product lookup. -/
inductive ProductFetchResult where
  | notFound
  | fetched (body : Option RProduct)
  | remoteError (status : Nat)
deriving DecidableEq

/-- Response handling of `fetch_product_by_id` (lines 93-98): a 404 returns
`None` (modelled `notFound`); `raise_for_status` raises on any other
status of 400 or above. -/
def fetchProductOutcome (status : Nat) (body : Option RProduct) :
    ProductFetchResult :=
  if status = 404 then ProductFetchResult.notFound
  else if 400 ≤ status then ProductFetchResult.remoteError status
  else ProductFetchResult.fetched body

/-- Result of a cart-creating POST. -/
inductive CreateCartResult where
  | conflict
  | created
  | remoteError (status : Nat)
deriving DecidableEq

/-- Response handling of `create_cart` (lines 115-119): a 409 is returned as
a distinct already-exists outcome before `raise_for_status`. -/
def createCartOutcome (status : Nat) : CreateCartResult :=
  if status = 409 then CreateCartResult.conflict
  else if 400 ≤ status then CreateCartResult.remoteError status
  else CreateCartResult.created

/-- Response handling of the create branch inside `upsert_cart_with_item`
(lines 204-211): only `raise_for_status`, with no 409 case. -/
def upsertCreateOutcome (status : Nat) : CreateCartResult :=
  if 400 ≤ status then CreateCartResult.remoteError status
  else CreateCartResult.created

/-- A product dictionary carrying only a numeric id (concrete test data). -/
def prodOfId (pid : Int) : RProduct := ⟨some pid, none, none, none, []⟩

/-- A cart item whose product reference resolved to `pid`. -/
def itemOf (pid : Int) (q : Option Int) : CartItem := ⟨some (prodOfId pid), q⟩

/-- A cart item whose product reference is missing. -/
def itemUnresolved : CartItem := ⟨none, some 2⟩

/-- A two-item cart used by concrete instantiations. -/
def twoItemCart : Cart :=
  ⟨some 1, some ("c1"), [itemOf 7 (some 1), itemOf 8 none]⟩

/-- A three-item cart with an unresolved middle item. -/
def threeItemCart : Cart :=
  ⟨some 1, some ("c1"), [itemOf 7 (some 1), itemUnresolved, itemOf 8 (some 2)]⟩

/-- A world in which every remote call succeeds with empty data. -/
def baseWorld : RemoteWorld :=
  ⟨RemoteRes.ok [], RemoteRes.ok none, RemoteRes.ok none, RemoteRes.ok (),
    RemoteRes.ok (), RemoteRes.ok none, ImageFetch.httpNotOk⟩

/-- A world whose cart read raises. -/
def worldCartFail : RemoteWorld :=
  ⟨RemoteRes.ok [], RemoteRes.fail, RemoteRes.ok none, RemoteRes.ok (),
    RemoteRes.ok (), RemoteRes.ok none, ImageFetch.httpNotOk⟩

/-- A world in which the product fetch, cart read and cart/item writes all
raise. -/
def worldAllFail : RemoteWorld :=
  ⟨RemoteRes.fail, RemoteRes.fail, RemoteRes.fail, RemoteRes.fail,
    RemoteRes.fail, RemoteRes.fail, ImageFetch.httpNotOk⟩

/-- A world holding `twoItemCart` whose item PUT raises. -/
def worldUpdateFail : RemoteWorld :=
  ⟨RemoteRes.ok [], RemoteRes.ok (some twoItemCart), RemoteRes.ok none,
    RemoteRes.fail, RemoteRes.ok (), RemoteRes.ok none, ImageFetch.httpNotOk⟩

/-- A world holding `twoItemCart` with every call succeeding. -/
def worldTwoItems : RemoteWorld :=
  ⟨RemoteRes.ok [], RemoteRes.ok (some twoItemCart), RemoteRes.ok none,
    RemoteRes.ok (), RemoteRes.ok (), RemoteRes.ok none, ImageFetch.httpNotOk⟩

/-- A product with one relative picture URL. -/
def prodWithImage : RProduct :=
  ⟨some 7, some ("Чай"), some ("Крепкий"), some 100,
    [some ⟨some ("/img.png")⟩]⟩

/-- A world serving `prodWithImage` whose image GET returns a bad status. -/
def worldImageBadStatus : RemoteWorld :=
  ⟨RemoteRes.ok [], RemoteRes.ok none, RemoteRes.ok none, RemoteRes.ok (),
    RemoteRes.ok (), RemoteRes.ok (some prodWithImage), ImageFetch.httpNotOk⟩

/-- A world serving `prodWithImage` whose image GET raises a transport
error. -/
def worldImageTransportErr : RemoteWorld :=
  ⟨RemoteRes.ok [], RemoteRes.ok none, RemoteRes.ok none, RemoteRes.ok (),
    RemoteRes.ok (), RemoteRes.ok (some prodWithImage),
    ImageFetch.transportErr⟩

theorem rebuildItems_eq (l : List CartItem) :
    rebuildItems l = l.filterMap resolveEntry := by
  induction l with
  | nil => rfl
  | cons item rest ih =>
      cases h : resolveEntry item with
      | none => simp [rebuildItems, List.filterMap_cons, h, ih]
      | some e => simp [rebuildItems, List.filterMap_cons, h, ih]

theorem removeLoop_eq (items : List CartItem) : ∀ idx i : Nat,
    removeLoop idx i items =
      (if i ≤ idx then rebuildItems (items.eraseIdx (idx - i))
       else rebuildItems items) := by
  induction items with
  | nil =>
      intro idx i
      simp [removeLoop, rebuildItems, List.eraseIdx]
  | cons item rest ih =>
      intro idx i
      rcases Nat.lt_trichotomy i idx with hlt | heq | hgt
      · have hne : ¬ i = idx := Nat.ne_of_lt hlt
        have hle : i ≤ idx := Nat.le_of_lt hlt
        have hsub : idx - i = (idx - (i + 1)) + 1 := by omega
        rw [if_pos hle, hsub, List.eraseIdx_cons_succ]
        simp only [removeLoop, if_neg hne]
        cases h : resolveEntry item with
        | none =>
            rw [ih idx (i + 1), if_pos (by omega : i + 1 ≤ idx)]
            simp [rebuildItems, h]
        | some e =>
            rw [ih idx (i + 1), if_pos (by omega : i + 1 ≤ idx)]
            simp [rebuildItems, h]
      · subst heq
        simp only [removeLoop, if_pos rfl]
        rw [ih i (i + 1), if_neg (by omega : ¬ i + 1 ≤ i)]
        rw [if_pos (Nat.le_refl i), Nat.sub_self, List.eraseIdx_cons_zero]
        simp
      · have hne : ¬ i = idx := by omega
        have hnle : ¬ i ≤ idx := by omega
        rw [if_neg hnle]
        simp only [removeLoop, if_neg hne]
        cases h : resolveEntry item with
        | none =>
            rw [ih idx (i + 1), if_neg (by omega : ¬ i + 1 ≤ idx)]
            simp [rebuildItems, h]
        | some e =>
            rw [ih idx (i + 1), if_neg (by omega : ¬ i + 1 ≤ idx)]
            simp [rebuildItems, h]

theorem removeRebuild_eq (idx : Nat) (items : List CartItem) :
    removeRebuild idx items = rebuildItems (items.eraseIdx idx) := by
  unfold removeRebuild
  rw [removeLoop_eq items idx 0, if_pos (Nat.zero_le idx), Nat.sub_zero]

/-- Claim C1: an add-item request with no existing cart issues exactly one
create call whose initial item list is exactly the single new entry; with an
existing cart it issues exactly one full-replace call whose list is the
existing items restricted to those whose product reference resolved to a
concrete id, in their original order, with the new entry appended last.
`upsertCartSpec` is the specification-worded restatement being matched. -/
theorem claim_c1_upsert_cart (telegramId : String) (existing : Option Cart)
    (productId : Int) (quantity : Int) :
    upsertCartWithItem telegramId existing productId quantity =
      upsertCartSpec telegramId existing productId quantity ∧
    (upsertCartWithItem telegramId existing productId quantity).length = 1 := by
  constructor
  · cases existing with
    | none => rfl
    | some cart => simp [upsertCartWithItem, upsertCartSpec, rebuildItems_eq]
  · cases existing with
    | none => rfl
    | some cart => rfl

/-- Claim C2: for every cart item list and in-range index, the replacement
list written by the remove-at-index operation equals the original list with
the element at that position removed, in order, with every item whose
product reference is unresolved excluded regardless of its index. -/
theorem claim_c2_remove_rebuild (w : RemoteWorld) (base : String) (c : Cart)
    (idx : Nat) (hw : w.cart = RemoteRes.ok (some c))
    (h : idx < c.items.length) :
    (handleButton (CallbackData.cartRemove (some (idx : Int))) w base).writes =
      [CartWrite.putItems (cartRef c)
        ((c.items.eraseIdx idx).filterMap resolveEntry)] := by
  have hcond : ¬ ((idx : Int) < 0 ∨ (c.items.length : Int) ≤ (idx : Int)) := by
    omega
  simp only [handleButton, entryState, cartRemoveStep, hw]
  rw [if_neg hcond]
  cases hu : w.update with
  | fail =>
      simp [removeRebuild_eq, rebuildItems_eq]
  | ok u =>
      simp [removeRebuild_eq, rebuildItems_eq]

theorem claim_c2_witness :
    worldTwoItems.cart = RemoteRes.ok (some twoItemCart) ∧
    0 < twoItemCart.items.length ∧
    (handleButton (CallbackData.cartRemove (some ((0 : Nat) : Int)))
        worldTwoItems ("b")).writes =
      [CartWrite.putItems (cartRef twoItemCart)
        ((twoItemCart.items.eraseIdx 0).filterMap resolveEntry)] :=
  ⟨rfl, by decide,
    claim_c2_remove_rebuild worldTwoItems ("b") twoItemCart 0 rfl (by decide)⟩

/-- Claim C3: a cart_remove request whose index is negative or not below the
item count reports the position-not-found message, issues no write call and
raises nothing. -/
theorem claim_c3_out_of_range (w : RemoteWorld) (base : String) (c : Cart)
    (idx : Int) (hw : w.cart = RemoteRes.ok (some c))
    (h : idx < 0 ∨ (c.items.length : Int) ≤ idx) :
    (handleButton (CallbackData.cartRemove (some idx)) w base).messages =
        [Msg.positionNotFound] ∧
    (handleButton (CallbackData.cartRemove (some idx)) w base).writes = [] ∧
    (handleButton (CallbackData.cartRemove (some idx)) w base).raised = false := by
  simp only [handleButton, entryState, cartRemoveStep, hw]
  rw [if_pos h]
  exact ⟨rfl, rfl, rfl⟩

theorem claim_c3_witness :
    worldTwoItems.cart = RemoteRes.ok (some twoItemCart) ∧
    ((5 : Int) < 0 ∨ (twoItemCart.items.length : Int) ≤ 5) ∧
    ((handleButton (CallbackData.cartRemove (some 5)) worldTwoItems ("b")).messages =
        [Msg.positionNotFound] ∧
      (handleButton (CallbackData.cartRemove (some 5)) worldTwoItems ("b")).writes = [] ∧
      (handleButton (CallbackData.cartRemove (some 5)) worldTwoItems ("b")).raised = false) :=
  ⟨rfl, by decide,
    claim_c3_out_of_range worldTwoItems ("b") twoItemCart 5 rfl (by decide)⟩

/-- Claim C4 counterexample: a successful email upsert clears the session
(`state.clear()`, line 326), leaving no state at all rather than the Menu
state the claim asserts. -/
theorem claim_c4_cex :
    (echoEmail ("a@b.com") (RemoteRes.ok ()) (some ConvState.waitingEmail)).finalState
        = none ∧
    (echoEmail ("a@b.com") (RemoteRes.ok ()) (some ConvState.waitingEmail)).finalState
        ≠ some ConvState.menu := by
  exact ⟨rfl, by decide⟩

/-- Claim C4 as amended: on a successful upsert the session state is cleared
(absent); on a failed upsert the state is left exactly as it was, so a user
in WaitingEmail stays in WaitingEmail and can retry. -/
theorem claim_c4_amended (text : String) (s0 : Option ConvState) :
    (echoEmail text (RemoteRes.ok ()) s0).finalState = none ∧
    (echoEmail text RemoteRes.fail s0).finalState = s0 :=
  ⟨rfl, rfl⟩

/-- Claim C5 counterexample: a completed cart_remove button event leaves the
session in Menu (`handle_menu` is set at lines 399-402 for every payload
other than `mycart`), not in Cart. -/
theorem claim_c5_cex :
    (handleButton (CallbackData.cartRemove (some 0)) worldTwoItems ("b")).raised
        = false ∧
    (handleButton (CallbackData.cartRemove (some 0)) worldTwoItems ("b")).finalState
        ≠ some ConvState.cart := by
  exact ⟨by decide, by decide⟩

/-- Claim C5 as amended: after any cart_remove button event the session
state is Menu, on every path through the branch. -/
theorem claim_c5_amended (parse : Option Int) (w : RemoteWorld) (base : String) :
    (handleButton (CallbackData.cartRemove parse) w base).finalState =
      some ConvState.menu := by
  cases parse with
  | none => rfl
  | some idx =>
      simp only [handleButton, entryState, cartRemoveStep]
      cases hw : w.cart with
      | fail => rfl
      | ok oc =>
          cases oc with
          | none => rfl
          | some c =>
              dsimp only
              by_cases h : idx < 0 ∨ (c.items.length : Int) ≤ idx
              · rw [if_pos h]
              · rw [if_neg h]
                cases hu : w.update with
                | fail => rfl
                | ok u => rfl

/-- Claim C6 counterexample: a failed cart read in the `mycart` path is not
caught at the handler boundary — the exception escapes `handle_button` and
no user-facing message is produced. -/
theorem claim_c6_cex :
    (handleButton CallbackData.mycart worldCartFail ("b")).raised = true ∧
    (handleButton CallbackData.mycart worldCartFail ("b")).messages = [] := by
  exact ⟨by decide, by decide⟩

/-- Claim C6 as amended: remote failures in the product-list fetch and the
add-to-cart upsert are caught and turned into a retry-later reply with
nothing raised, but cart reads in the `mycart` and `cart_remove` paths and
the item PUT in `cart_remove` are unguarded — their failures escape the
handler with no reply, and the state set at handler entry (Cart for
`mycart`, Menu otherwise) persists. -/
theorem claim_c6_amended (wf wu : RemoteWorld) (base : String) (idx : Int)
    (c : Cart)
    (h1 : wf.products = RemoteRes.fail)
    (h2 : wf.upsertCart = RemoteRes.fail)
    (h3 : wf.cart = RemoteRes.fail)
    (h4 : wu.cart = RemoteRes.ok (some c))
    (h5 : ¬ (idx < 0 ∨ (c.items.length : Int) ≤ idx))
    (h6 : wu.update = RemoteRes.fail) :
    ((handleButton CallbackData.backToList wf base).raised = false ∧
      (handleButton CallbackData.backToList wf base).messages = [Msg.productsFailed]) ∧
    ((handleButton (CallbackData.addcart (some idx)) wf base).raised = false ∧
      (handleButton (CallbackData.addcart (some idx)) wf base).messages = [Msg.addFailed] ∧
      (handleButton (CallbackData.addcart (some idx)) wf base).finalState = some ConvState.menu) ∧
    ((handleButton CallbackData.mycart wf base).raised = true ∧
      (handleButton CallbackData.mycart wf base).messages = [] ∧
      (handleButton CallbackData.mycart wf base).finalState = some ConvState.cart) ∧
    ((handleButton (CallbackData.cartRemove (some idx)) wf base).raised = true ∧
      (handleButton (CallbackData.cartRemove (some idx)) wf base).messages = [] ∧
      (handleButton (CallbackData.cartRemove (some idx)) wf base).finalState = some ConvState.menu) ∧
    ((handleButton (CallbackData.cartRemove (some idx)) wu base).raised = true ∧
      (handleButton (CallbackData.cartRemove (some idx)) wu base).messages = []) := by
  refine ⟨⟨?_, ?_⟩, ⟨?_, ?_, ?_⟩, ⟨?_, ?_, ?_⟩, ⟨?_, ?_, ?_⟩, ⟨?_, ?_⟩⟩ <;>
    simp [handleButton, entryState, menuStep, addcartStep, mycartStep,
      cartRemoveStep, renderCart, h1, h2, h3, h4, h5, h6]

theorem claim_c6_witness :
    ((handleButton CallbackData.backToList worldAllFail ("b")).raised = false ∧
      (handleButton CallbackData.backToList worldAllFail ("b")).messages = [Msg.productsFailed]) ∧
    ((handleButton (CallbackData.addcart (some 0)) worldAllFail ("b")).raised = false ∧
      (handleButton (CallbackData.addcart (some 0)) worldAllFail ("b")).messages = [Msg.addFailed] ∧
      (handleButton (CallbackData.addcart (some 0)) worldAllFail ("b")).finalState = some ConvState.menu) ∧
    ((handleButton CallbackData.mycart worldAllFail ("b")).raised = true ∧
      (handleButton CallbackData.mycart worldAllFail ("b")).messages = [] ∧
      (handleButton CallbackData.mycart worldAllFail ("b")).finalState = some ConvState.cart) ∧
    ((handleButton (CallbackData.cartRemove (some 0)) worldAllFail ("b")).raised = true ∧
      (handleButton (CallbackData.cartRemove (some 0)) worldAllFail ("b")).messages = [] ∧
      (handleButton (CallbackData.cartRemove (some 0)) worldAllFail ("b")).finalState = some ConvState.menu) ∧
    ((handleButton (CallbackData.cartRemove (some 0)) worldUpdateFail ("b")).raised = true ∧
      (handleButton (CallbackData.cartRemove (some 0)) worldUpdateFail ("b")).messages = []) :=
  claim_c6_amended worldAllFail worldUpdateFail ("b") 0 twoItemCart
    rfl rfl rfl rfl (by decide) rfl

/-- Claim C7 counterexample: the create-with-initial-item branch of
`upsert_cart_with_item` has no 409 case — a 409 response goes through
`raise_for_status` and becomes a generic failure, not a distinct Conflict. -/
theorem claim_c7_cex :
    upsertCreateOutcome 409 = CreateCartResult.remoteError 409 ∧
    upsertCreateOutcome 409 ≠ CreateCartResult.conflict := by
  exact ⟨by decide, by decide⟩

/-- Claim C7 as amended: the single-product lookup maps 404 to NotFound,
distinct from any other 4xx/5xx which yields a RemoteError; the standalone
`create_cart` surfaces 409 as a distinct Conflict; but the
create-with-initial-item branch of `upsert_cart_with_item` treats 409 as a
generic RemoteError. -/
theorem claim_c7_amended (status : Nat) (body : Option RProduct)
    (h404 : status ≠ 404) (h400 : 400 ≤ status) (h409 : status ≠ 409) :
    fetchProductOutcome 404 body = ProductFetchResult.notFound ∧
    fetchProductOutcome status body = ProductFetchResult.remoteError status ∧
    createCartOutcome 409 = CreateCartResult.conflict ∧
    createCartOutcome status = CreateCartResult.remoteError status ∧
    upsertCreateOutcome 409 = CreateCartResult.remoteError 409 := by
  refine ⟨rfl, ?_, rfl, ?_, rfl⟩
  · simp [fetchProductOutcome, h404, h400]
  · simp [createCartOutcome, h409, h400]

theorem claim_c7_witness :
    (500 : Nat) ≠ 404 ∧ (400 : Nat) ≤ 500 ∧ (500 : Nat) ≠ 409 ∧
    (fetchProductOutcome 404 none = ProductFetchResult.notFound ∧
      fetchProductOutcome 500 none = ProductFetchResult.remoteError 500 ∧
      createCartOutcome 409 = CreateCartResult.conflict ∧
      createCartOutcome 500 = CreateCartResult.remoteError 500 ∧
      upsertCreateOutcome 409 = CreateCartResult.remoteError 409) :=
  ⟨by decide, by decide, by decide,
    claim_c7_amended 500 none (by decide) (by decide) (by decide)⟩

/-- Claim C8 counterexample: a timeout or connection failure inside
`download_image` is not caught anywhere — the exception escapes the handler
instead of degrading to a text-only message. -/
theorem claim_c8_cex :
    (handleButton (CallbackData.productBtn ("7") ("doc7"))
        worldImageTransportErr ("http://b")).raised = true ∧
    (handleButton (CallbackData.productBtn ("7") ("doc7"))
        worldImageTransportErr ("http://b")).messages = [] := by
  exact ⟨by decide, by decide⟩

/-- Claim C8 as amended: an image fetch that completes with a non-success
HTTP status yields the text-only fallback carrying the same caption and
raises nothing, but a transport failure (timeout or connection error)
propagates out of the handler uncaught. -/
theorem claim_c8_amended (w1 w2 : RemoteWorld) (base nid did : String)
    (p : RProduct) (u : String)
    (h1 : w1.productDetail = RemoteRes.ok (some p))
    (h2 : resolveImageUrl base p = some u)
    (h3 : w1.image = ImageFetch.httpNotOk)
    (h4 : w2.productDetail = RemoteRes.ok (some p))
    (h5 : w2.image = ImageFetch.transportErr) :
    ((handleButton (CallbackData.productBtn nid did) w1 base).messages =
        [Msg.textMsg (mkCaption p)] ∧
      (handleButton (CallbackData.productBtn nid did) w1 base).raised = false) ∧
    ((handleButton (CallbackData.productBtn nid did) w2 base).raised = true ∧
      (handleButton (CallbackData.productBtn nid did) w2 base).messages = []) := by
  refine ⟨⟨?_, ?_⟩, ⟨?_, ?_⟩⟩ <;>
    simp [handleButton, entryState, productStep, downloadImage,
      h1, h2, h3, h4, h5]

theorem claim_c8_witness :
    worldImageBadStatus.productDetail = RemoteRes.ok (some prodWithImage) ∧
    resolveImageUrl ("http://b") prodWithImage = some ("http://b/img.png") ∧
    (((handleButton (CallbackData.productBtn ("7") ("doc7"))
          worldImageBadStatus ("http://b")).messages =
        [Msg.textMsg (mkCaption prodWithImage)] ∧
      (handleButton (CallbackData.productBtn ("7") ("doc7"))
          worldImageBadStatus ("http://b")).raised = false) ∧
    ((handleButton (CallbackData.productBtn ("7") ("doc7"))
          worldImageTransportErr ("http://b")).raised = true ∧
      (handleButton (CallbackData.productBtn ("7") ("doc7"))
          worldImageTransportErr ("http://b")).messages = [])) :=
  ⟨rfl, by decide,
    claim_c8_amended worldImageBadStatus worldImageTransportErr ("http://b")
      ("7") ("doc7") prodWithImage ("http://b/img.png")
      rfl (by decide) rfl rfl rfl⟩

/-- Claim C9: with both credentials configured and non-empty, the catalog
listing carries the read-scoped token and never the write-scoped one, while
every cart and client operation carries the write-scoped token; with no
write token configured, cart and client operations fall back to the
read-scoped token. -/
theorem claim_c9_token_scoping (c c2 : StrapiConfig)
    (hr : truthyStr c.tokenRead = true)
    (hw : truthyStr c.tokenWrite = true)
    (h2 : truthyStr c2.tokenWrite = false) :
    productsToken c = c.tokenRead ∧
    (c.tokenRead ≠ c.tokenWrite → productsToken c ≠ c.tokenWrite) ∧
    fetchCartToken c = c.tokenWrite ∧
    createCartToken c = c.tokenWrite ∧
    upsertCartToken c = c.tokenWrite ∧
    updateCartItemsToken c = c.tokenWrite ∧
    fetchClientToken c = c.tokenWrite ∧
    upsertClientToken c = c.tokenWrite ∧
    fetchCartToken c2 = c2.tokenRead ∧
    createCartToken c2 = c2.tokenRead ∧
    upsertCartToken c2 = c2.tokenRead ∧
    updateCartItemsToken c2 = c2.tokenRead ∧
    fetchClientToken c2 = c2.tokenRead ∧
    upsertClientToken c2 = c2.tokenRead := by
  have ha : c.authToken = c.tokenWrite := by
    simp [StrapiConfig.authToken, pyOrStr, hw]
  have hb : c2.authToken = c2.tokenRead := by
    simp [StrapiConfig.authToken, pyOrStr, h2]
  exact ⟨rfl, fun hne => hne, ha, ha, ha, ha, ha, ha,
    hb, hb, hb, hb, hb, hb⟩

theorem claim_c9_witness :
    truthyStr (StrapiConfig.mk ("b") ("p") (some ("r")) (some ("w"))).tokenRead = true ∧
    truthyStr (StrapiConfig.mk ("b") ("p") (some ("r")) (some ("w"))).tokenWrite = true ∧
    truthyStr (StrapiConfig.mk ("b") ("p") (some ("r")) none).tokenWrite = false ∧
    (productsToken (StrapiConfig.mk ("b") ("p") (some ("r")) (some ("w"))) =
        (StrapiConfig.mk ("b") ("p") (some ("r")) (some ("w"))).tokenRead ∧
      ((StrapiConfig.mk ("b") ("p") (some ("r")) (some ("w"))).tokenRead ≠
          (StrapiConfig.mk ("b") ("p") (some ("r")) (some ("w"))).tokenWrite →
        productsToken (StrapiConfig.mk ("b") ("p") (some ("r")) (some ("w"))) ≠
          (StrapiConfig.mk ("b") ("p") (some ("r")) (some ("w"))).tokenWrite) ∧
      fetchCartToken (StrapiConfig.mk ("b") ("p") (some ("r")) (some ("w"))) =
        (StrapiConfig.mk ("b") ("p") (some ("r")) (some ("w"))).tokenWrite ∧
      createCartToken (StrapiConfig.mk ("b") ("p") (some ("r")) (some ("w"))) =
        (StrapiConfig.mk ("b") ("p") (some ("r")) (some ("w"))).tokenWrite ∧
      upsertCartToken (StrapiConfig.mk ("b") ("p") (some ("r")) (some ("w"))) =
        (StrapiConfig.mk ("b") ("p") (some ("r")) (some ("w"))).tokenWrite ∧
      updateCartItemsToken (StrapiConfig.mk ("b") ("p") (some ("r")) (some ("w"))) =
        (StrapiConfig.mk ("b") ("p") (some ("r")) (some ("w"))).tokenWrite ∧
      fetchClientToken (StrapiConfig.mk ("b") ("p") (some ("r")) (some ("w"))) =
        (StrapiConfig.mk ("b") ("p") (some ("r")) (some ("w"))).tokenWrite ∧
      upsertClientToken (StrapiConfig.mk ("b") ("p") (some ("r")) (some ("w"))) =
        (StrapiConfig.mk ("b") ("p") (some ("r")) (some ("w"))).tokenWrite ∧
      fetchCartToken (StrapiConfig.mk ("b") ("p") (some ("r")) none) =
        (StrapiConfig.mk ("b") ("p") (some ("r")) none).tokenRead ∧
      createCartToken (StrapiConfig.mk ("b") ("p") (some ("r")) none) =
        (StrapiConfig.mk ("b") ("p") (some ("r")) none).tokenRead ∧
      upsertCartToken (StrapiConfig.mk ("b") ("p") (some ("r")) none) =
        (StrapiConfig.mk ("b") ("p") (some ("r")) none).tokenRead ∧
      updateCartItemsToken (StrapiConfig.mk ("b") ("p") (some ("r")) none) =
        (StrapiConfig.mk ("b") ("p") (some ("r")) none).tokenRead ∧
      fetchClientToken (StrapiConfig.mk ("b") ("p") (some ("r")) none) =
        (StrapiConfig.mk ("b") ("p") (some ("r")) none).tokenRead ∧
      upsertClientToken (StrapiConfig.mk ("b") ("p") (some ("r")) none) =
        (StrapiConfig.mk ("b") ("p") (some ("r")) none).tokenRead) :=
  ⟨by decide, by decide, by decide,
    claim_c9_token_scoping
      (StrapiConfig.mk ("b") ("p") (some ("r")) (some ("w")))
      (StrapiConfig.mk ("b") ("p") (some ("r")) none)
      (by decide) (by decide) (by decide)⟩

/-- Claim C10: the email handler performs no format validation — for every
incoming text, the string handed to the client upsert is exactly the text
with surrounding whitespace stripped, a successful upsert is acknowledged
with that same string, and the client write carries it verbatim. -/
theorem claim_c10_no_validation (text : String) (r : RemoteRes Unit)
    (s0 : Option ConvState) (telegramId : String) (existing : Option Client) :
    (echoEmail text r s0).submitted = some (pyStrip text) ∧
    (echoEmail text (RemoteRes.ok ()) s0).messages =
      [Msg.emailSaved (pyStrip text)] ∧
    writtenEmail (upsertClientEmail telegramId existing (pyStrip text)) =
      pyStrip text := by
  refine ⟨?_, rfl, ?_⟩
  · cases r <;> rfl
  · cases existing <;> rfl
